import Mathlib

/-!
Verification of the Vessa firewall-app request-analysis pipeline.

Shallow embedding of the Python sources:
  services/waf/waf_config.py        (thresholds, score-to-action mapping)
  services/waf/waf_engine.py        (WAF decision engine, decision cache)
  services/incident/core/incident_service.py
                                    (static pattern analyzer, threat-intel
                                     analysis, ML analysis, result combiner)
  services/common/rate_limit.py     (sliding-window rate limiter)
  services/common/middleware/auth_rate_limit.py
                                    (auth lockout state machine)

Python floats carrying threat scores and timestamps are modelled as ℚ
(all constants involved are short decimals, exactly representable).
Python dicts keyed by strings are modelled as insertion-ordered
association lists.  Regular-expression search (Python `re.search`,
external to the repository) is passed in as an oracle
`reSearch : String → String → Bool` taking the pattern text and the
scanned text.
-/

-- Decidable equality for Except, used to evaluate concrete engine runs.
deriving instance DecidableEq for Except

namespace Vessa

/-! ## waf_config.py -/

/-- The `WAFAction` enum from waf_config.py. -/
inductive WAFAction where
  | allow
  | block
  | log
  | rateLimit
  | challenge
deriving DecidableEq, Repr

/-- The `ThreatThresholds` model (defaults block=0.75, challenge=0.5, log=0.25). -/
structure ThreatThresholds where
  block : ℚ := 3/4
  challenge : ℚ := 1/2
  log : ℚ := 1/4
deriving DecidableEq, Repr

/-- The `WAFConfig.get_action_for_score` (waf_config.py lines 137-153). -/
def getActionForScore (t : ThreatThresholds) (threat_score : ℚ) : WAFAction :=
  if threat_score ≥ t.block then .block
  else if threat_score ≥ t.challenge then .challenge
  else if threat_score ≥ t.log then .log
  else .allow

/-- Python `str.lower()` (character-wise). -/
def strToLower (s : String) : String :=
  ⟨s.data.map Char.toLower⟩

/-- Contiguous-sublist test on character lists (helper for Python `in`). -/
def subListChar (hay pat : List Char) : Bool :=
  match hay with
  | [] => pat.isEmpty
  | _ :: t => pat.isPrefixOf hay || subListChar t pat

/-- Python substring membership `pat in s`. -/
def strContains (s pat : String) : Bool :=
  subListChar s.data pat.data

/-- Python `s.startswith(pre)`. -/
def strStartsWith (s pre : String) : Bool :=
  pre.data.isPrefixOf s.data

/-- Excluded-path check `WAFConfig.is_path_excluded`: true when the request
path starts with one of the configured excluded prefixes. -/
def isPathExcludedBy (excluded_paths : List String) (path : String) : Bool :=
  excluded_paths.any (fun excluded => strStartsWith path excluded)

/-! ## incident_service.py: threat-type normalization and result combiner -/

/-- Valid threat types from `IncidentService._validate_threat_type`
(incident_service.py lines 1191-1239). -/
def validThreatTypes : List String :=
  ["sql_injection", "xss", "command_injection", "path_traversal",
   "nosql_injection", "safe", "suspicious", "benign", "deserialization",
   "graphql_attacks", "jwt_attacks", "lfi", "modern_cmdi",
   "modern_file_attacks", "modern_sqli", "modern_ssrf", "modern_xss",
   "open_redirect", "prototype_pollution", "sqli", "ssrf",
   "template_injection", "xxe_injection"]

/-- Mapping table from `_validate_threat_type`. -/
def threatTypeMapping : List (String × String) :=
  [("unknown", "suspicious"),
   ("unauthorized_access", "suspicious"),
   ("malware", "suspicious"),
   ("phishing", "suspicious"),
   ("ddos", "suspicious"),
   ("brute_force", "suspicious"),
   ("injection", "sql_injection"),
   ("script_injection", "xss"),
   ("code_injection", "command_injection"),
   ("file_inclusion", "lfi"),
   ("directory_traversal", "path_traversal"),
   ("sql", "sql_injection"),
   ("nosql", "nosql_injection")]

/-- The `threat_type.lower().replace(" ", "_").replace("-", "_")`. -/
def pyNormalizeType (t : String) : String :=
  ⟨((t.data.map Char.toLower).map (fun c => if c = ' ' then '_' else c)).map
    (fun c => if c = '-' then '_' else c)⟩

/-- The `IncidentService._validate_threat_type` (incident_service.py 1191-1239). -/
def validateThreatType (threat_type : String) : String :=
  let normalized := pyNormalizeType threat_type
  if normalized ∈ validThreatTypes then normalized
  else
    match threatTypeMapping.lookup normalized with
    | some mapped => mapped
    | none => "suspicious"

/-- Observable fields of the analysis-result dicts flowing through the
incident service (`threat_score`, `threat_type`, `findings`,
`should_block`).  `should_block` is absent from the ML-analysis dict, hence
an `Option`.  Bookkeeping keys (`analysis_type`, `analysis_methods`,
`pattern_matches`, `confidence`, `recommendations`, nested copies of the
inputs, `threat_details`) carry no information any claim mentions and are
omitted. -/
structure AnalysisDict where
  threat_score : ℚ
  threat_type : String
  findings : List String
  should_block : Option Bool := none
deriving DecidableEq, Repr

/-- The `IncidentService._combine_analysis_results` (incident_service.py lines
1321-1358).  The class defines `_combine_analysis_results` twice (lines
774-808 and 1321-1358); in Python the later definition overrides the
earlier one, so this — the version with the ≥ 0.75 short-circuits — is the
method every call site actually invokes, including the combination of
static and threat-intelligence results in `analyze_request`. -/
def combineAnalysisResults (static_analysis_result ml_analysis_result : AnalysisDict) :
    AnalysisDict :=
  if static_analysis_result.threat_score ≥ 3/4 then static_analysis_result
  else if ml_analysis_result.threat_score ≥ 3/4 then ml_analysis_result
  else
    let combined_findings := static_analysis_result.findings ++ ml_analysis_result.findings
    let combined_threat_score :=
      max static_analysis_result.threat_score ml_analysis_result.threat_score
    let threat_type :=
      if combined_threat_score ≥ 1/2 then
        if ml_analysis_result.threat_score > static_analysis_result.threat_score then
          ml_analysis_result.threat_type
        else static_analysis_result.threat_type
      else "safe"
    { threat_score := combined_threat_score
      threat_type := validateThreatType threat_type
      findings := combined_findings
      should_block := some (combined_threat_score ≥ 3/4) }

/-! ## incident_service.py: `_perform_basic_static_analysis` (lines 509-695)

The regex pattern texts are transcribed verbatim from the Python source
(raw strings); apostrophes and braces appear as `\x27`, `\x7b`, `\x7d`
escapes.  `re.search(pattern, text, re.IGNORECASE)` is abstracted as the
oracle `reSearch pattern text`. -/

/-- The `sql_patterns` list from `_perform_basic_static_analysis`. -/
def sqlInjectionPatterns : List String :=
  ["(\\\x27|\\\")\\s*(or|and|not)\\s*(\\d|true|false|null)",
   "union\\s+(all\\s+)?select",
   "insert\\s+into",
   "delete\\s+from",
   "drop\\s+table",
   "update\\s+set",
   "(\\\x27|\\\")\\s*;\\s*",
   "(\\\x27|\\\")\\s*--\\s*",
   "(\\\x27|\\\")\\s*#\\s*",
   "(\\\x27|\\\")\\s*/\\*",
   "(\\\x27|\\\")\\s*or\\s*1\\s*=\\s*1",
   "(\\\x27|\\\")\\s*or\\s*true",
   "(\\\x27|\\\")\\s*or\\s*false",
   "(\\\x27|\\\")\\s*and\\s*1\\s*=\\s*1",
   "(\\\x27|\\\")\\s*and\\s*true"]

/-- The `xss_patterns` list. -/
def xssPatterns : List String :=
  ["<script[^>]*>",
   "javascript:",
   "vbscript:",
   "on\\w+\\s*=",
   "eval\\s*\\(",
   "setTimeout\\s*\\(",
   "setInterval\\s*\\(",
   "alert\\s*\\(",
   "confirm\\s*\\(",
   "prompt\\s*\\(",
   "<iframe[^>]*>",
   "<object[^>]*>",
   "<embed[^>]*>",
   "<link[^>]*javascript:",
   "<img[^>]*onerror="]

/-- The `cmd_patterns` list. -/
def cmdInjectionPatterns : List String :=
  ["[;&|`]\\s*[\\w\\-]+",
   "\\$\\([^)]*\\)",
   "`[^`]*`",
   "\\b(ping|nc|netcat|wget|curl|bash|sh|python|perl|ruby)\\b",
   ">\\s*/[a-z]+/",
   "\\|\\s*[\\w\\-]+",
   "&&\\s*[\\w\\-]+",
   "\\|\\|\\s*[\\w\\-]+"]

/-- The `path_patterns` list. -/
def pathTraversalPatterns : List String :=
  ["\\.\\./",
   "\\.\\.\\\\",
   "%2e%2e%2f",
   "%2e%2e/",
   "%2e%2e%5c",
   "\\.\\.%2f",
   "\\.\\.%5c",
   "%252e%252e%252f",
   "%252e%252e%255c",
   "/etc/passwd",
   "/etc/shadow",
   "/etc/hosts",
   "c:\\\\windows\\\\system32",
   "windows\\\\system32\\\\drivers\\\\etc"]

/-- The `nosql_patterns` list. -/
def nosqlInjectionPatterns : List String :=
  ["\\$\\w+\\s*:",
   "\\$ne\\s*:",
   "\\$eq\\s*:",
   "\\$gt\\s*:",
   "\\$gte\\s*:",
   "\\$lt\\s*:",
   "\\$lte\\s*:",
   "\\$in\\s*:",
   "\\$nin\\s*:",
   "\\$all\\s*:",
   "\\$size\\s*:",
   "\\$exists\\s*:",
   "\\$type\\s*:",
   "\\$not\\s*:",
   "\\$mod\\s*:",
   "\\$text\\s*:",
   "\\$slice\\s*:",
   "\\$or\\s*:",
   "\\$and\\s*:",
   "\\$nor\\s*:",
   "\\$where\\s*:",
   "\\$regex\\s*:"]

/-- The `suspicious_agents` list. -/
def suspiciousAgents : List String :=
  ["curl", "python-requests", "wget", "nmap", "masscan",
   "sqlmap", "nikto", "zap", "burp", "acunetix"]

/-- Arguments of `_perform_basic_static_analysis`.  `body` holds the Python
`str(body)` rendering of whatever was passed (the function only ever uses
`str(body)`). -/
structure StaticInput where
  source_ip : String := "unknown"
  request_path : String
  request_method : String := "GET"
  headers : Option (List (String × String)) := none
  body : Option String := none
  user_agent : Option String := none
deriving DecidableEq, Repr

/-- CPython `str()` of a string-to-string dict: entries in insertion order,
single-quoted.  (Keys/values containing quote characters would render
differently; no input in this development contains them.) -/
def pyDictStr (l : List (String × String)) : String :=
  "\x7b" ++
    String.intercalate ", "
      (l.map (fun kv => "\x27" ++ kv.1 ++ "\x27: \x27" ++ kv.2 ++ "\x27")) ++
  "\x7d"

/-- Truthiness of the optional headers dict (`if headers:`): `None` and the
empty dict are falsy. -/
def headersTruthy (headers : Option (List (String × String))) : Bool :=
  match headers with
  | some l => !l.isEmpty
  | none => false

/-- The `combined_input` scan buffer:
`f"{path_str} {body_str} {headers_str} {user_agent_str}"` with each part
lower-cased and falsy parts rendered as the empty string. -/
def combinedScanInput (inp : StaticInput) : String :=
  let path_str := strToLower inp.request_path
  let body_str := match inp.body with
    | some b => if b = "" then "" else strToLower b
    | none => ""
  let headers_str :=
    if headersTruthy inp.headers then strToLower (pyDictStr (inp.headers.getD [])) else ""
  let user_agent_str := match inp.user_agent with
    | some u => strToLower u
    | none => ""
  path_str ++ " " ++ body_str ++ " " ++ headers_str ++ " " ++ user_agent_str

/-- The `"X-Forwarded-For" in headers` bonus condition (exact,
case-sensitive key membership, only evaluated when the dict is truthy). -/
def xffBonusHit (inp : StaticInput) : Bool :=
  headersTruthy inp.headers &&
    (match inp.headers with
     | some l => (l.lookup "X-Forwarded-For").isSome
     | none => false)

/-- The lower-cased `headers.get("user-agent", "")` value. -/
def headerUserAgent (inp : StaticInput) : String :=
  match inp.headers with
  | some l => strToLower ((l.lookup "user-agent").getD "")
  | none => ""

/-- The suspicious-user-agent bonus condition (substring check of each
entry of `suspicious_agents` against the header user agent). -/
def suspiciousUaHit (inp : StaticInput) : Bool :=
  headersTruthy inp.headers &&
    suspiciousAgents.any (fun agent => strContains (headerUserAgent inp) agent)

/-- The `"admin" in path_str` bonus condition. -/
def adminPathHit (inp : StaticInput) : Bool :=
  strContains (strToLower inp.request_path) "admin"

/-- The `IncidentService._perform_basic_static_analysis` (lines 509-695).

The Python body mutates `threat_score`, `findings` and `threat_type`
sequentially: for each family in the order SQL (+85), XSS (+80), command
injection (+90), path traversal (+85), NoSQL (+80) the first matching
pattern adds the fixed score of the family, appends one finding and overwrites
`threat_type`, then the loop breaks; afterwards the header bonuses
(+10 X-Forwarded-For, +20 suspicious user agent) append findings without
touching `threat_type`, and an `"admin" in path` hit adds +20 and
overwrites `threat_type` with `"suspicious"`.  The additions commute, and
the sequential overwrites of `threat_type` equal the reverse-priority
conditional below (admin last, then nosql, path, cmd, xss, sql). -/
def basicStaticAnalysis (reSearch : String → String → Bool) (inp : StaticInput) :
    AnalysisDict :=
  let combined_input := combinedScanInput inp
  let sqlHit := sqlInjectionPatterns.find? (fun p => reSearch p combined_input)
  let xssHit := xssPatterns.find? (fun p => reSearch p combined_input)
  let cmdHit := cmdInjectionPatterns.find? (fun p => reSearch p combined_input)
  let pathHit := pathTraversalPatterns.find? (fun p => reSearch p combined_input)
  let nosqlHit := nosqlInjectionPatterns.find? (fun p => reSearch p combined_input)
  let threat_score : ℕ :=
    (if sqlHit.isSome then 85 else 0) +
    (if xssHit.isSome then 80 else 0) +
    (if cmdHit.isSome then 90 else 0) +
    (if pathHit.isSome then 85 else 0) +
    (if nosqlHit.isSome then 80 else 0) +
    (if xffBonusHit inp then 10 else 0) +
    (if suspiciousUaHit inp then 20 else 0) +
    (if adminPathHit inp then 20 else 0)
  let findings :=
    (sqlHit.map (fun p => "SQL injection pattern detected: " ++ p)).toList ++
    (xssHit.map (fun p => "XSS pattern detected: " ++ p)).toList ++
    (cmdHit.map (fun p => "Command injection pattern detected: " ++ p)).toList ++
    (pathHit.map (fun p => "Path traversal pattern detected: " ++ p)).toList ++
    (nosqlHit.map (fun p => "NoSQL injection pattern detected: " ++ p)).toList ++
    (if xffBonusHit inp then ["Suspicious proxy usage detected"] else []) ++
    (if suspiciousUaHit inp then
       ["Suspicious user agent detected: " ++ headerUserAgent inp] else []) ++
    (if adminPathHit inp then ["Attempted admin access"] else [])
  let threat_type :=
    if adminPathHit inp then "suspicious"
    else if nosqlHit.isSome then "nosql_injection"
    else if pathHit.isSome then "path_traversal"
    else if cmdHit.isSome then "command_injection"
    else if xssHit.isSome then "xss"
    else if sqlHit.isSome then "sql_injection"
    else "safe"
  let normalized_score : ℚ := (min threat_score 100 : ℕ) / 100
  { threat_score := normalized_score
    threat_type := validateThreatType (if threat_score > 0 then threat_type else "safe")
    findings := findings
    should_block := some (normalized_score ≥ 1/2) }

/-! ## incident_service.py: threat-intelligence and ML analysis paths -/

/-- Observable output of the external `ThreatIntelligenceService`
comprehensive analysis: overall score on a 0-100 scale plus
recommendation strings. -/
structure TIRaw where
  overall_threat_score : ℚ
  recommendations : List String
deriving DecidableEq, Repr

/-- The `IncidentService._perform_threat_intelligence_analysis` (lines
697-749).  The whole body is wrapped in try/except: a collaborator error
is caught and converted into the score-0 "safe" dict. -/
def performThreatIntelligenceAnalysis (outcome : Except String TIRaw) : AnalysisDict :=
  match outcome with
  | .ok ta =>
    { threat_score := ta.overall_threat_score / 100
      threat_type :=
        validateThreatType (if ta.overall_threat_score > 50 then "suspicious" else "safe")
      findings := ta.recommendations
      should_block := some (ta.overall_threat_score ≥ 75) }
  | .error _ =>
    { threat_score := 0
      threat_type := "safe"
      findings := ["Threat intelligence analysis failed"]
      should_block := some false }

/-- The `IncidentService.analyze_request` (lines 470-507): static analysis,
then threat-intelligence analysis, then `_combine_analysis_results`. -/
def incidentAnalyzeRequest (reSearch : String → String → Bool) (inp : StaticInput)
    (tiOutcome : Except String TIRaw) : AnalysisDict :=
  combineAnalysisResults (basicStaticAnalysis reSearch inp)
    (performThreatIntelligenceAnalysis tiOutcome)

/-- Observable output of `ModelLoader.detect_attack` (the classifier). -/
structure MLRaw where
  confidence : ℚ
  final_label : String
deriving DecidableEq, Repr

/-- The `IncidentService._perform_ml_analysis` (lines 1241-1280).  The
argument models `self.model_loader` (`none` when models are unavailable)
paired with the outcome of the `detect_attack` call, which is NOT wrapped
in try/except: a classifier error propagates to the caller.  (The Python
finding text formats the confidence with `%.2f`; here it is rendered with
`toString`, a difference no claim observes.) -/
def performMlAnalysis (modelLoader : Option (Except String MLRaw)) :
    Except String AnalysisDict :=
  match modelLoader with
  | none => .ok
      { threat_score := 0
        threat_type := "safe"
        findings := ["ML analysis not available - models not loaded"] }
  | some (.error e) => .error e
  | some (.ok r) =>
    let validated := validateThreatType r.final_label
    .ok { threat_score := r.confidence
          threat_type := validated
          findings := ["ML model detected " ++ validated ++ " with confidence " ++
            toString r.confidence] }

/-- The `IncidentService._create_analysis_result` (lines 1360-1466) restricted
to its observable fields: `threat_score`, `threat_type` and `findings`
pass through unchanged and `should_block` is recomputed as score ≥ 0.75;
incident/malicious-request persistence is an external-collaborator side
effect. -/
def finalizeAnalysisResult (a : AnalysisDict) : AnalysisDict :=
  { a with should_block := some (a.threat_score ≥ 3/4) }

/-- The `IncidentService.analyze_raw_request` (lines 1040-1113).
`rawStaticResult` stands for the value of `_perform_static_analysis`
(lines 1115-1189), the second, pattern-match-collecting static analyzer
used on this path; it is a pure function of the request and no claim
depends on its internals, so it is taken as an input.  When static
analysis is enabled, dynamic analysis is disabled and the static score is
below 0.75, no branch of the Python function returns the static result:
control falls through to the default "no analysis" dict. -/
def analyzeRawRequest (staticEnabled dynamicEnabled : Bool)
    (rawStaticResult : AnalysisDict) (modelLoader : Option (Except String MLRaw)) :
    Except String AnalysisDict :=
  if staticEnabled && !dynamicEnabled && decide (rawStaticResult.threat_score ≥ 3/4) then
    .ok (finalizeAnalysisResult rawStaticResult)
  else if dynamicEnabled then
    match performMlAnalysis modelLoader with
    | .error e => .error e
    | .ok mlResult =>
      if !staticEnabled then .ok (finalizeAnalysisResult mlResult)
      else .ok (finalizeAnalysisResult (combineAnalysisResults rawStaticResult mlResult))
  else
    .ok { threat_score := 0
          threat_type := "safe"
          findings := ["No analysis performed (both static and dynamic analysis disabled)."]
          should_block := some false }

/-! ## waf_engine.py: decision engine and decision cache -/

/-- The configuration surface `WAFEngine.analyze_request` consults
(`WAFConfig` fields; `mode`, logging flags and rate-limit settings are not
read by `analyze_request` and are omitted). -/
structure EngineConfig where
  thresholds : ThreatThresholds := {}
  static_enabled : Bool := true
  ml_enabled : Bool := true
  ml_async : Bool := true
  cache_enabled : Bool := true
  cache_ttl : ℚ := 300
  excluded_paths : List String := ["/health", "/metrics", "/api/v1/health"]
  whitelist : List String := []
  blacklist : List String := []
deriving DecidableEq, Repr

/-- Response bodies produced by the engine: `{}` for allow, the
403-Forbidden dict (carrying the threat type) for block, and the
429-challenge dict.  The embedded `request_id` (a hash of the wall clock)
is not modelled. -/
inductive ResponseBody where
  | emptyBody
  | forbidden (threat_type : String)
  | challengePage
deriving DecidableEq, Repr

/-- The `WAFDecision` dataclass (waf_engine.py lines 21-32).
`analysis_time_ms` (wall clock) is not modelled. -/
structure WAFDecision where
  action : WAFAction
  threat_score : ℚ
  threat_type : String
  findings : List String
  should_block : Bool
  response_code : ℕ
  response_body : ResponseBody
  cache_hit : Bool := false
deriving DecidableEq, Repr

/-- Arguments of `WAFEngine.analyze_request`; `body` is its Python `str()`
rendering as in `StaticInput`. -/
structure WAFRequest where
  method : String
  path : String
  headers : List (String × String) := []
  body : Option String := none
  query_params : Option (List (String × String)) := none
  client_ip : Option String := none
deriving DecidableEq, Repr

/-- The `_generate_cache_key` (lines 324-341): md5 of
`"method|path|str(query_params or {})|str(body or '')"`.  The md5 digest
is modelled by its preimage (the hash is assumed collision-free). -/
def generateCacheKey (req : WAFRequest) : String :=
  req.method ++ "|" ++ req.path ++ "|" ++
    pyDictStr (req.query_params.getD []) ++ "|" ++ req.body.getD ""

/-- The engine's decision cache `self.cache : Dict[str, (WAFDecision, float)]`
as an insertion-ordered association list. -/
abbrev DecisionCache := List (String × WAFDecision × ℚ)

/-- The `_get_from_cache` (lines 343-351): a fresh entry is returned, an
expired entry is deleted.  Returns the lookup result and the
possibly-updated cache. -/
def getFromCache (cache : DecisionCache) (cache_key : String) (now ttl : ℚ) :
    Option WAFDecision × DecisionCache :=
  match cache.find? (fun e => e.1 == cache_key) with
  | some (_, d, ts) =>
    if now - ts < ttl then (some d, cache)
    else (none, cache.filter (fun e => e.1 != cache_key))
  | none => (none, cache)

/-- On a cache hit the engine sets `cached_decision.cache_hit = True`,
mutating the stored object; the stored entry is updated accordingly. -/
def setCacheHitFlag (cache : DecisionCache) (cache_key : String) : DecisionCache :=
  cache.map (fun e =>
    if e.1 == cache_key then (e.1, { e.2.1 with cache_hit := true }, e.2.2) else e)

/-- Python dict assignment `d[k] = v`: overwrite in place if the key
exists, else append. -/
def dictInsert (cache : DecisionCache) (k : String) (v : WAFDecision × ℚ) :
    DecisionCache :=
  if cache.any (fun e => e.1 == k) then
    cache.map (fun e => if e.1 == k then (k, v) else e)
  else cache ++ [(k, v)]

/-- The `_add_to_cache` (lines 353-362): store the decision with the current
time; when the cache exceeds 10000 entries, evict the 2000 entries with
the oldest timestamps. -/
def addToCache (cache : DecisionCache) (cache_key : String) (d : WAFDecision) (now : ℚ) :
    DecisionCache :=
  let cache' := dictInsert cache cache_key (d, now)
  if 10000 < cache'.length then
    let sorted := cache'.mergeSort (fun a b => a.2.2 ≤ b.2.2)
    let oldestKeys := (sorted.take 2000).map (fun e => e.1)
    cache'.filter (fun e => !(oldestKeys.contains e.1))
  else cache'

/-- The `_create_block_decision` (lines 391-420); statistics bookkeeping and
`request_id` omitted. -/
def createBlockDecision (threat_score : ℚ) (threat_type : String)
    (findings : List String) : WAFDecision :=
  { action := .block
    threat_score := threat_score
    threat_type := threat_type
    findings := findings
    should_block := true
    response_code := 403
    response_body := .forbidden threat_type }

/-- The `_create_challenge_decision` (lines 422-443). -/
def createChallengeDecision (threat_score : ℚ) (threat_type : String)
    (findings : List String) : WAFDecision :=
  { action := .challenge
    threat_score := threat_score
    threat_type := threat_type
    findings := findings
    should_block := false
    response_code := 429
    response_body := .challengePage }

/-- The `_create_allow_decision` (lines 445-462): score 0.0, type "safe",
status 200, empty body. -/
def createAllowDecision (findings : List String) : WAFDecision :=
  { action := .allow
    threat_score := 0
    threat_type := "safe"
    findings := findings
    should_block := false
    response_code := 200
    response_body := .emptyBody }

/-- The `_create_decision_from_analysis` (lines 364-389): map the analysis
score to an action via `get_action_for_score`; block and challenge keep
the analysis score and type, everything else (log and allow) becomes the
allow decision. -/
def createDecisionFromAnalysis (t : ThreatThresholds) (a : AnalysisDict) : WAFDecision :=
  match getActionForScore t a.threat_score with
  | .block => createBlockDecision a.threat_score a.threat_type a.findings
  | .challenge => createChallengeDecision a.threat_score a.threat_type a.findings
  | _ => createAllowDecision a.findings

/-- Instrumentation of one `analyze_request` run: whether the decision
cache was consulted, whether the fast static Pattern Analyzer ran on the
response path, and whether the slow (ML) analysis ran synchronously on
the response path. -/
structure AnalysisTrace where
  cacheChecked : Bool := false
  staticRan : Bool := false
  mlSyncRan : Bool := false
deriving DecidableEq, Repr

/-- How `analyze_request` packages its arguments for
`_perform_basic_static_analysis` (via `_fast_static_analysis`, lines
198-229): `client_ip or "unknown"`, path, method, the headers dict,
the body, and `headers.get("user-agent")`. -/
def staticInputOf (req : WAFRequest) : StaticInput :=
  { source_ip :=
      match req.client_ip with
      | some ip => if ip = "" then "unknown" else ip
      | none => "unknown"
    request_path := req.path
    request_method := req.method
    headers := some req.headers
    body := req.body
    user_agent := req.headers.lookup "user-agent" }

/-- Steps `if client_ip:` plus `_check_ip_lists` (lines 114-133 and
312-322): whitelist first (allow), then blacklist (block); `None` or the
empty string skip the check. -/
def ipGateDecision (cfg : EngineConfig) (client_ip : Option String) : Option WAFDecision :=
  match client_ip with
  | some ip =>
    if ip = "" then none
    else if cfg.whitelist.contains ip then
      some (createAllowDecision ["IP " ++ ip ++ " is whitelisted"])
    else if cfg.blacklist.contains ip then
      some (createBlockDecision 1 "blacklisted_ip" ["IP " ++ ip ++ " is blacklisted"])
    else none
  | none => none

/-- The engine's cache-consultation step: only performed when caching is
enabled. -/
def wafCacheLookup (cfg : EngineConfig) (cache : DecisionCache) (cache_key : String)
    (now : ℚ) : Option WAFDecision × DecisionCache :=
  if cfg.cache_enabled then getFromCache cache cache_key now cfg.cache_ttl
  else (none, cache)

/-- The ML phase of `analyze_request` (lines 156-189).  In async mode
(`ml_async`) the decision is built from the static result alone and the
ML analysis is scheduled as a fire-and-forget background task
(`_async_ml_analysis` catches every exception; the task never touches the
decision cache or the response), so the classifier outcome does not enter
the returned value at all.  In synchronous mode `_ml_analysis` calls
`analyze_raw_request` on an incident service constructed with
`dynamic_analysis_enabled = 1`, with no exception handling on the way. -/
def wafMlPhase (cfg : EngineConfig) (cache₁ : DecisionCache) (cache_key : String)
    (now : ℚ) (staticOpt : Option AnalysisDict)
    (modelLoader : Option (Except String MLRaw)) (rawStaticResult : AnalysisDict) :
    Except String (WAFDecision × DecisionCache × AnalysisTrace) :=
  if cfg.ml_enabled then
    if cfg.ml_async then
      let base := match staticOpt with
        | some sr => sr
        | none => { threat_score := 0, threat_type := "unknown", findings := [] }
      .ok (createDecisionFromAnalysis cfg.thresholds base, cache₁,
        { cacheChecked := cfg.cache_enabled, staticRan := staticOpt.isSome })
    else
      match analyzeRawRequest cfg.static_enabled true rawStaticResult modelLoader with
      | .error e => .error e
      | .ok mlResult =>
        let d := createDecisionFromAnalysis cfg.thresholds mlResult
        let cache₂ := if cfg.cache_enabled then addToCache cache₁ cache_key d now else cache₁
        .ok (d, cache₂,
          { cacheChecked := cfg.cache_enabled, staticRan := staticOpt.isSome,
            mlSyncRan := true })
  else
    .ok (createAllowDecision ["No analysis configured"], cache₁,
      { cacheChecked := cfg.cache_enabled, staticRan := staticOpt.isSome })

/-- The `WAFEngine.analyze_request` (waf_engine.py lines 69-196) as a function
of the engine state (config and decision cache), the request, the current
time, the regex oracle and the classifier collaborator.  Statistics
bookkeeping and the fire-and-forget incident-logging tasks have no effect
on the returned decision or the cache and are omitted.  Step order as in
the source: path exclusion, decision cache, IP allow/block lists, fast
static analysis (early block), ML phase. -/
def wafAnalyzeRequest (cfg : EngineConfig) (cache : DecisionCache) (req : WAFRequest)
    (now : ℚ) (reSearch : String → String → Bool)
    (modelLoader : Option (Except String MLRaw)) (rawStaticResult : AnalysisDict) :
    Except String (WAFDecision × DecisionCache × AnalysisTrace) :=
  if isPathExcludedBy cfg.excluded_paths req.path then
    .ok ({ action := .allow
           threat_score := 0
           threat_type := "safe"
           findings := ["Path excluded from WAF"]
           should_block := false
           response_code := 200
           response_body := .emptyBody }, cache, {})
  else
    let cache_key := generateCacheKey req
    match wafCacheLookup cfg cache cache_key now with
    | (some cached, cache₁) =>
      .ok ({ cached with cache_hit := true }, setCacheHitFlag cache₁ cache_key,
        { cacheChecked := true })
    | (none, cache₁) =>
      match ipGateDecision cfg req.client_ip with
      | some d => .ok (d, cache₁, { cacheChecked := cfg.cache_enabled })
      | none =>
        if cfg.static_enabled then
          let static_result := basicStaticAnalysis reSearch (staticInputOf req)
          if static_result.threat_score ≥ cfg.thresholds.block then
            let d := createDecisionFromAnalysis cfg.thresholds static_result
            let cache₂ :=
              if cfg.cache_enabled then addToCache cache₁ cache_key d now else cache₁
            .ok (d, cache₂, { cacheChecked := cfg.cache_enabled, staticRan := true })
          else
            wafMlPhase cfg cache₁ cache_key now (some static_result) modelLoader
              rawStaticResult
        else
          wafMlPhase cfg cache₁ cache_key now none modelLoader rawStaticResult

/-! ## rate_limit.py: sliding-window rate limiter -/

/-- The `limit_info` dict returned by `RateLimiter.is_rate_limited`
(`reset` is `int(reset_time)`, i.e. the floor of a nonnegative float). -/
structure RateLimitInfo where
  limit : ℕ
  remaining : ℕ
  reset : ℤ
  window_seconds : ℚ
deriving DecidableEq, Repr

/-- The `RateLimiter.is_rate_limited` (rate_limit.py lines 37-93) for one
Redis key, with the sorted set modelled as the list of its member
timestamps (members are `str(timestamp)`, so duplicates collapse):
`zremrangebyscore key 0 window_start` removes scores in
`[0, now - window]`; `zcard` counts the survivors; when not limited,
`zadd` inserts the current timestamp; `zrange key 0 0` then reads the
smallest remaining score for the reset estimate. -/
def isRateLimited (zset : List ℚ) (now : ℚ) (max_requests : ℕ) (window_seconds : ℚ) :
    Bool × RateLimitInfo × List ℚ :=
  let window_start := now - window_seconds
  let pruned := zset.filter (fun ts => !(0 ≤ ts && ts ≤ window_start))
  let request_count := pruned.length
  let is_limited := max_requests ≤ request_count
  let zset' :=
    if is_limited then pruned
    else if pruned.contains now then pruned else pruned ++ [now]
  let reset_time : ℚ :=
    if 0 < request_count then
      match zset'.min? with
      | some oldest_request => oldest_request + window_seconds
      | none => now + window_seconds
    else now + window_seconds
  (is_limited,
   { limit := max_requests
     remaining := max_requests - request_count
     reset := ⌊reset_time⌋
     window_seconds := window_seconds }, zset')

/-- Run a sequence of rate-limit checks for one key, starting from an
empty sorted set, returning the last call's result (used to replay the
61-requests-in-60-seconds scenario). -/
def rateLimitRun (times : List ℚ) (max_requests : ℕ) (window_seconds : ℚ) :
    Bool × RateLimitInfo × List ℚ :=
  times.foldl
    (fun acc t => isRateLimited acc.2.2 t max_requests window_seconds)
    (false, { limit := max_requests, remaining := max_requests, reset := 0,
              window_seconds := window_seconds }, [])

/-! ## auth_rate_limit.py: auth lockout state machine -/

/-- The `MAX_LOGIN_ATTEMPTS_PER_MINUTE`. -/
def maxLoginAttemptsPerMinute : ℕ := 5

/-- The `MAX_LOGIN_ATTEMPTS_PER_HOUR`. -/
def maxLoginAttemptsPerHour : ℕ := 20

/-- The `MAX_LOGIN_ATTEMPTS_PER_DAY`. -/
def maxLoginAttemptsPerDay : ℕ := 50

/-- The `LOCKOUT_DURATION_MINUTES * 60` in seconds. -/
def lockoutDurationSeconds : ℚ := 900

/-- The `auth_patterns` from `_is_auth_endpoint` (membership is a substring
test: `pattern in path`). -/
def authEndpointPatterns : List String :=
  ["/api/v1/auth/token",
   "/api/v1/auth/register",
   "/api/v1/auth/refresh",
   "/api/v1/auth/reset-password"]

/-- The `AuthRateLimitMiddleware._is_auth_endpoint`. -/
def isAuthEndpoint (path : String) : Bool :=
  authEndpointPatterns.any (fun pattern => strContains path pattern)

/-- The middleware's shared state: `attempts : {ip: [(timestamp, path)]}`
and `lockouts : {ip: lockout_until_timestamp}`. -/
structure AuthRLState where
  attempts : List (String × List (ℚ × String)) := []
  lockouts : List (String × ℚ) := []
deriving DecidableEq, Repr

/-- The `_get_attempt_counts` (per-minute, per-hour, per-day counts of
attempts with timestamp strictly greater than now - window). -/
def getAttemptCounts (attempts : List (ℚ × String)) (now : ℚ) : ℕ × ℕ × ℕ :=
  ((attempts.filter (fun a => now - 60 < a.1)).length,
   (attempts.filter (fun a => now - 3600 < a.1)).length,
   (attempts.filter (fun a => now - 86400 < a.1)).length)

/-- Generic association-list update (Python dict assignment). -/
def assocSet {β : Type} (l : List (String × β)) (k : String) (v : β) :
    List (String × β) :=
  if l.any (fun e => e.1 == k) then
    l.map (fun e => if e.1 == k then (k, v) else e)
  else l ++ [(k, v)]

/-- Generic association-list deletion (Python `del d[k]`). -/
def assocErase {β : Type} (l : List (String × β)) (k : String) :
    List (String × β) :=
  l.filter (fun e => e.1 != k)

/-- Outcome of one `AuthRateLimitMiddleware.dispatch` call: either the
downstream response passed through (with its status code), a 429 for an
active lockout (`Retry-After` = truncated remaining lockout seconds), or
a 429 from `_check_rate_limits` (`Retry-After` = 60 / 3600 / 86400
depending on the threshold that tripped). -/
inductive AuthDispatchResult where
  | response (status : ℕ)
  | lockedOut429 (retryAfter : ℤ)
  | rateLimited429 (retryAfter : ℕ)
deriving DecidableEq, Repr

/-- The `AuthRateLimitMiddleware.dispatch` (auth_rate_limit.py lines 41-102)
as a state-transition function.  `respStatus` is the status code the
downstream handler (`call_next`, the content analysis / auth logic) would
return; the `analysisRan` flag records whether `call_next` was invoked.
Control flow as in the source: non-auth paths pass through untouched; an
unexpired lockout raises 429 before anything else (an expired one is
deleted); `_check_rate_limits` raises 429 and applies a 15-minute lockout
when any of the three thresholds is reached; otherwise the attempt is
recorded, attempts older than 24 hours are pruned, the request is
processed, and a 200 response to a POST clears the IP's attempt history
and lockout. -/
def authDispatch (st : AuthRLState) (now : ℚ) (path method ip : String)
    (respStatus : ℕ) : AuthDispatchResult × Bool × AuthRLState :=
  if !isAuthEndpoint path then (.response respStatus, true, st)
  else
    -- `_is_locked_out`: an expired lockout is deleted as a side effect.
    let lockoutEntry := st.lockouts.lookup ip
    match lockoutEntry with
    | some lockout_until =>
      if now ≤ lockout_until then
        (.lockedOut429 ⌊lockout_until - now⌋, false, st)
      else
        authDispatchUnlocked { st with lockouts := assocErase st.lockouts ip }
          now path method ip respStatus
    | none => authDispatchUnlocked st now path method ip respStatus
where
  /-- The part of `dispatch` after the lockout gate. -/
  authDispatchUnlocked (st : AuthRLState) (now : ℚ) (path method ip : String)
      (respStatus : ℕ) : AuthDispatchResult × Bool × AuthRLState :=
    let ipAttempts := (st.attempts.lookup ip).getD []
    let counts := getAttemptCounts ipAttempts now
    -- `_check_rate_limits`: each branch applies the lockout then raises.
    if maxLoginAttemptsPerMinute ≤ counts.1 then
      (.rateLimited429 60, false,
       { st with lockouts := assocSet st.lockouts ip (now + lockoutDurationSeconds) })
    else if maxLoginAttemptsPerHour ≤ counts.2.1 then
      (.rateLimited429 3600, false,
       { st with lockouts := assocSet st.lockouts ip (now + lockoutDurationSeconds) })
    else if maxLoginAttemptsPerDay ≤ counts.2.2 then
      (.rateLimited429 86400, false,
       { st with lockouts := assocSet st.lockouts ip (now + lockoutDurationSeconds) })
    else
      -- record the attempt, then `_cleanup_old_attempts`
      let recorded := ipAttempts ++ [(now, path)]
      let cleaned := recorded.filter (fun a => now - 86400 < a.1)
      let attempts₁ :=
        if cleaned.isEmpty then assocErase st.attempts ip
        else assocSet st.attempts ip cleaned
      -- `call_next` runs; a 200 response to a POST clears history and lockout
      if respStatus = 200 && method = "POST" then
        (.response respStatus, true,
         { attempts := assocSet attempts₁ ip []
           lockouts := assocErase st.lockouts ip })
      else
        (.response respStatus, true, { st with attempts := attempts₁ })

/-! ## Concrete inputs for counterexamples -/

/-- C7 counterexample request: `GET /search` with a JSON body mapping
the key q to the value `ping $ne :` (the `body` field holds the Python
`str()` rendering of that dict). -/
def c7Input : StaticInput :=
  { source_ip := "10.0.0.1"
    request_path := "/search"
    request_method := "GET"
    headers := none
    body := some "\x7b\x27q\x27: \x27ping $ne :\x27\x7d"
    user_agent := none }

/-- Oracle for the C7 counterexample input: on the combined scan buffer
`/search \x7b\x27q\x27: \x27ping $ne :\x27\x7d  ` Python `re.search`
matches exactly the command-injection word-boundary pattern (on `ping`)
and the first NoSQL pattern (on `$ne :`), and none of the other patterns
the loops consult (checked by hand against every pattern list). -/
def c7Search : String → String → Bool := fun pat _ =>
  pat == "\\b(ping|nc|netcat|wget|curl|bash|sh|python|perl|ruby)\\b" ||
  pat == "\\$\\w+\\s*:"

/-- Oracle for benign concrete requests whose scan buffers contain no
quote, bracket, dollar, dot-dot, semicolon or wordlist token: no pattern
matches, so `re.search` is constantly false. -/
def noMatchSearch : String → String → Bool := fun _ _ => false

/-- Sync-ML engine configuration for the C3 counterexample. -/
def c3Config : EngineConfig := { ml_async := false }

/-- Benign request for the C3/C4 counterexamples (scan buffer
`/ok   ` matches no pattern). -/
def c3Request : WAFRequest :=
  { method := "GET"
    path := "/ok"
    headers := []
    body := none
    query_params := none
    client_ip := some "9.9.9.9" }

/-- The `_perform_static_analysis` output for the benign request (score 0, no
findings). -/
def benignRawStatic : AnalysisDict :=
  { threat_score := 0, threat_type := "safe", findings := [], should_block := none }

/-- Sync-ML engine configuration with a blacklist, for the C5
counterexample. -/
def c5Config : EngineConfig := { ml_async := false, blacklist := ["6.6.6.6"] }

/-- First C5 request: benign, from the unlisted IP 1.2.3.4. -/
def c5Request1 : WAFRequest :=
  { method := "GET", path := "/data", client_ip := some "1.2.3.4" }

/-- Second C5 request: identical fingerprint fields, but from the
blacklisted IP 6.6.6.6 (the cache key does not include the IP). -/
def c5Request2 : WAFRequest :=
  { method := "GET", path := "/data", client_ip := some "6.6.6.6" }

/-- Benign classifier outcome for the C5 counterexample. -/
def c5Ml : Option (Except String MLRaw) :=
  some (.ok { confidence := 0, final_label := "safe" })

/-- The decision produced (and cached) by the first C5 call. -/
def c5CachedDecision : WAFDecision :=
  createAllowDecision ["ML model detected safe with confidence 0"]

/-- The 61 request times of the C8 scenario: one request per second at
t = 0..59, then a 61st at t = 59.5; all 61 lie within 60 seconds. -/
def c8Times : List ℚ := ((List.range 60).map (fun n => (n : ℚ))) ++ [119/2]

/-- Malicious request for the C4-amended witness: body `; ls -la` (scan
buffer `/run ; ls -la  `), on which Python `re.search` matches exactly the
first command-injection pattern and nothing else. -/
def c4AttackRequest : WAFRequest :=
  { method := "POST"
    path := "/run"
    headers := []
    body := some "; ls -la"
    query_params := none
    client_ip := some "7.7.7.7" }

/-- Oracle for `c4AttackRequest` (see its docstring). -/
def c4AttackSearch : String → String → Bool := fun pat _ =>
  pat == "[;&|`]\\s*[\\w\\-]+"

/-- The decision the engine derives (and caches) for `c4AttackRequest`
under the default configuration: static score 0.9 ⇒ block. -/
def c4AttackDecision : WAFDecision :=
  createDecisionFromAnalysis ({} : EngineConfig).thresholds
    (basicStaticAnalysis c4AttackSearch (staticInputOf c4AttackRequest))

/-- A protected auth endpoint. -/
def c9AuthPath : String := "/api/v1/auth/token"

/-- Five attempts against the protected endpoint within the last minute
(as seen from t = 10). -/
def c9Attempts : List (ℚ × String) :=
  [(5, c9AuthPath), (6, c9AuthPath), (7, c9AuthPath), (8, c9AuthPath), (9, c9AuthPath)]

/-- Auth-limiter state with five recent attempts for IP 2.2.2.2 and no
lockout. -/
def c9St : AuthRLState :=
  { attempts := [("2.2.2.2", c9Attempts)], lockouts := [] }

/-- Auth-limiter state with IP 2.2.2.2 locked out until t = 910. -/
def c9Locked : AuthRLState :=
  { attempts := [("2.2.2.2", c9Attempts)], lockouts := [("2.2.2.2", 910)] }

/-- Auth-limiter state with a single old attempt for IP 2.2.2.2. -/
def c9CleanSt : AuthRLState :=
  { attempts := [("2.2.2.2", [(1, c9AuthPath)])], lockouts := [] }

/-! ## Helper lemmas -/

/-- The `(l.find? p).isSome` agrees with `l.any p`. -/
theorem find?_isSome_eq_any {α : Type} (p : α → Bool) (l : List α) :
    (l.find? p).isSome = l.any p := by
  induction l with
  | nil => rfl
  | cons a t ih =>
    by_cases h : p a <;> simp [List.find?_cons, h, ih]

/-- Case analysis of the combiner's score: the static result is returned
wholesale at or above 0.75, otherwise the score is the max. -/
theorem combine_score_cases (s m : AnalysisDict) :
    (combineAnalysisResults s m).threat_score =
      if 3/4 ≤ s.threat_score then s.threat_score
      else max s.threat_score m.threat_score := by
  unfold combineAnalysisResults
  rcases le_or_lt (3/4 : ℚ) s.threat_score with hs | hs
  · simp [ge_iff_le, hs]
  · rcases le_or_lt (3/4 : ℚ) m.threat_score with hm | hm
    · simp [ge_iff_le, not_le.mpr hs, hm, max_eq_right (hs.le.trans hm)]
    · simp [ge_iff_le, not_le.mpr hs, not_le.mpr hm]

/-- The static analyzer's normalized score is nonnegative. -/
theorem basicStaticAnalysis_score_nonneg (reSearch : String → String → Bool)
    (inp : StaticInput) : 0 ≤ (basicStaticAnalysis reSearch inp).threat_score := by
  simp only [basicStaticAnalysis]
  positivity

/-! ## Claim theorems -/

/-- C2: with monotone thresholds log ≤ challenge ≤ block, the mapping returns
block iff score ≥ block threshold, challenge iff challenge ≤ score < block,
and allow whenever score < log threshold. -/
theorem c2_get_action_for_score (t : ThreatThresholds) (s : ℚ)
    (hlc : t.log ≤ t.challenge) (hcb : t.challenge ≤ t.block) :
    (getActionForScore t s = .block ↔ t.block ≤ s) ∧
    (getActionForScore t s = .challenge ↔ t.challenge ≤ s ∧ s < t.block) ∧
    (s < t.log → getActionForScore t s = .allow) := by
  unfold getActionForScore
  refine ⟨?_, ?_, ?_⟩
  · constructor
    · intro h
      by_contra hb
      push_neg at hb
      simp only [ge_iff_le, not_le.mpr hb, if_false] at h
      split at h
      · exact absurd h (by simp)
      · split at h <;> simp_all
    · intro h
      simp [ge_iff_le, h]
  · constructor
    · intro h
      by_cases hb : t.block ≤ s
      · simp [ge_iff_le, hb] at h
      · by_cases hc : t.challenge ≤ s
        · exact ⟨hc, lt_of_not_le hb⟩
        · simp only [ge_iff_le, not_le.mpr (lt_of_not_le hb), if_false,
            not_le.mpr (lt_of_not_le hc), if_false] at h
          split at h <;> simp_all
    · rintro ⟨hc, hb⟩
      simp [ge_iff_le, not_le.mpr hb, hc]
  · intro hl
    have hc : ¬ t.challenge ≤ s := fun h => absurd (lt_of_lt_of_le hl hlc) (not_lt.mpr h)
    have hb : ¬ t.block ≤ s := fun h => absurd (lt_of_lt_of_le hl (hlc.trans hcb)) (not_lt.mpr h)
    simp [ge_iff_le, hb, hc, not_le.mpr hl]

/-- Witness for C2 at the default thresholds and score 0.8 / the allow case. -/
theorem c2_get_action_for_score_witness :
    getActionForScore {} (4/5) = .block ∧ getActionForScore {} (1/10) = .allow := by
  have h := c2_get_action_for_score {} (4/5) (by norm_num) (by norm_num)
  have h2 := c2_get_action_for_score {} (1/10) (by norm_num) (by norm_num)
  exact ⟨h.1.mpr (by norm_num), h2.2.2 (by norm_num)⟩

/-- C1 counterexample: with a static score of 0.8 and a classifier score of
0.9 the combiner short-circuits on the static result, so the combined score
is 0.8, not the maximum 0.9. -/
theorem c1_combine_max_rule_cex :
    (combineAnalysisResults
        { threat_score := 4/5, threat_type := "sql_injection", findings := [] }
        { threat_score := 9/10, threat_type := "xss", findings := [] }).threat_score ≠
      max (4/5 : ℚ) (9/10) := by
  unfold combineAnalysisResults
  norm_num

/-- C1 amended: the combined score is the maximum of the two input scores
whenever the static score is below 0.75; when the static score is at least
0.75 the combiner returns the static result unchanged, so the combined
score is the static score even if the classifier score is larger. -/
theorem c1_combine_max_rule_amended (s m : AnalysisDict) :
    (combineAnalysisResults s m).threat_score =
      if 3/4 ≤ s.threat_score then s.threat_score
      else max s.threat_score m.threat_score :=
  combine_score_cases s m

/-- C6: the analyzer's normalized score is the sum of the per-family base
scores of the families with a matching pattern (SQL 85, XSS 80, command
injection 90, path traversal 85, NoSQL 80 — each family at most once) plus
the header/heuristic bonuses (X-Forwarded-For 10, suspicious user agent 20,
admin path 20), capped at 100 and divided by 100, hence always in [0,1]. -/
theorem c6_static_score_additive (reSearch : String → String → Bool) (inp : StaticInput) :
    (basicStaticAnalysis reSearch inp).threat_score =
      ((min
        ((if sqlInjectionPatterns.any (fun p => reSearch p (combinedScanInput inp)) then 85 else 0) +
         (if xssPatterns.any (fun p => reSearch p (combinedScanInput inp)) then 80 else 0) +
         (if cmdInjectionPatterns.any (fun p => reSearch p (combinedScanInput inp)) then 90 else 0) +
         (if pathTraversalPatterns.any (fun p => reSearch p (combinedScanInput inp)) then 85 else 0) +
         (if nosqlInjectionPatterns.any (fun p => reSearch p (combinedScanInput inp)) then 80 else 0) +
         (if xffBonusHit inp then 10 else 0) +
         (if suspiciousUaHit inp then 20 else 0) +
         (if adminPathHit inp then 20 else 0)) 100 : ℕ) : ℚ) / 100 ∧
    0 ≤ (basicStaticAnalysis reSearch inp).threat_score ∧
    (basicStaticAnalysis reSearch inp).threat_score ≤ 1 := by
  refine ⟨?_, basicStaticAnalysis_score_nonneg reSearch inp, ?_⟩
  · simp only [basicStaticAnalysis, find?_isSome_eq_any]
  · simp only [basicStaticAnalysis]
    rw [div_le_one (by norm_num)]
    exact_mod_cast Nat.cast_le.mpr (min_le_right _ 100)

/-- C7 counterexample theorem: on `c7Input` both the command-injection and
the NoSQL family match, yet the reported category is `nosql_injection`,
not the higher-severity `command_injection` demanded by the claimed
ranking. -/
theorem c7_static_category_cex :
    cmdInjectionPatterns.any (fun p => c7Search p (combinedScanInput c7Input)) = true ∧
    nosqlInjectionPatterns.any (fun p => c7Search p (combinedScanInput c7Input)) = true ∧
    (basicStaticAnalysis c7Search c7Input).threat_type = "nosql_injection" ∧
    (basicStaticAnalysis c7Search c7Input).threat_type ≠ "command_injection" := by
  refine ⟨by decide, by decide, by decide, by decide⟩

/-- C7 amended: the reported category is not the highest-severity matching
family; it is the LAST matching family in the fixed check order SQL, XSS,
command injection, path traversal, NoSQL (each later match overwrites the
earlier), overridden to `suspicious` whenever the lower-cased path contains
`admin`; when nothing set it, the category is `safe` — header-only findings
never change it to `suspicious`. -/
theorem c7_static_category_amended (reSearch : String → String → Bool) (inp : StaticInput) :
    (basicStaticAnalysis reSearch inp).threat_type =
      (if adminPathHit inp then "suspicious"
       else if nosqlInjectionPatterns.any (fun p => reSearch p (combinedScanInput inp)) then
         "nosql_injection"
       else if pathTraversalPatterns.any (fun p => reSearch p (combinedScanInput inp)) then
         "path_traversal"
       else if cmdInjectionPatterns.any (fun p => reSearch p (combinedScanInput inp)) then
         "command_injection"
       else if xssPatterns.any (fun p => reSearch p (combinedScanInput inp)) then "xss"
       else if sqlInjectionPatterns.any (fun p => reSearch p (combinedScanInput inp)) then
         "sql_injection"
       else "safe") := by
  simp only [basicStaticAnalysis, find?_isSome_eq_any]
  by_cases hA : adminPathHit inp <;>
    by_cases hN : nosqlInjectionPatterns.any (fun p => reSearch p (combinedScanInput inp)) <;>
    by_cases hP : pathTraversalPatterns.any (fun p => reSearch p (combinedScanInput inp)) <;>
    by_cases hC : cmdInjectionPatterns.any (fun p => reSearch p (combinedScanInput inp)) <;>
    by_cases hX : xssPatterns.any (fun p => reSearch p (combinedScanInput inp)) <;>
    by_cases hS : sqlInjectionPatterns.any (fun p => reSearch p (combinedScanInput inp)) <;>
    by_cases hF : xffBonusHit inp <;>
    by_cases hU : suspiciousUaHit inp <;>
    simp [hA, hN, hP, hC, hX, hS, hF, hU] <;> decide

/-- C10: every decision `_create_decision_from_analysis` produces with
action allow has threat score 0, category "safe", response code 200 and an
empty response body; in particular an analysis score in the log range
(log ≤ score < challenge, with monotone thresholds) yields exactly the
allow decision, hiding the nonzero analysis score. -/
theorem c10_allow_decision_shape (t : ThreatThresholds) (a : AnalysisDict)
    (hcb : t.challenge ≤ t.block) :
    ((createDecisionFromAnalysis t a).action = .allow →
      (createDecisionFromAnalysis t a).threat_score = 0 ∧
      (createDecisionFromAnalysis t a).threat_type = "safe" ∧
      (createDecisionFromAnalysis t a).response_code = 200 ∧
      (createDecisionFromAnalysis t a).response_body = .emptyBody) ∧
    (t.log ≤ a.threat_score → a.threat_score < t.challenge →
      createDecisionFromAnalysis t a = createAllowDecision a.findings) := by
  constructor
  · intro h
    unfold createDecisionFromAnalysis at h ⊢
    cases hg : getActionForScore t a.threat_score <;>
      simp_all [createBlockDecision, createChallengeDecision, createAllowDecision]
  · intro hlog hch
    have hnb : ¬ a.threat_score ≥ t.block :=
      fun hb => absurd (lt_of_lt_of_le hch hcb) (not_lt.mpr hb)
    have hnc : ¬ a.threat_score ≥ t.challenge := not_le.mpr hch
    unfold createDecisionFromAnalysis getActionForScore
    simp [hnb, hnc, ge_iff_le, hlog]

/-- Witness for C10: under default thresholds a score of 0.3 (log range)
produces the allow decision. -/
theorem c10_allow_decision_shape_witness :
    createDecisionFromAnalysis {}
        { threat_score := 3/10, threat_type := "suspicious", findings := ["x"] } =
      createAllowDecision ["x"] :=
  (c10_allow_decision_shape {}
      { threat_score := 3/10, threat_type := "suspicious", findings := ["x"] }
      (by norm_num)).2 (by norm_num) (by norm_num)

set_option maxRecDepth 40000 in
unseal Rat.add Rat.sub Rat.mul Rat.inv in
/-- C3 counterexample: in synchronous-ML mode (`ml_async = False`) a
classifier error propagates uncaught out of `analyze_request`
(`_perform_ml_analysis` has no try/except), so `evaluate` does not return
a Decision. -/
theorem c3_fail_open_cex :
    wafAnalyzeRequest c3Config [] c3Request 0 noMatchSearch
        (some (.error "classifier unavailable")) benignRawStatic =
      .error "classifier unavailable" := by
  unfold wafAnalyzeRequest
  decide

/-- C3 amended: (1) a threat-intelligence collaborator error is caught
inside `_perform_threat_intelligence_analysis` and contributes score 0, so
the combined analysis score equals the static score alone; (2) in the
default asynchronous mode the classifier outcome has no effect on the
value `analyze_request` returns; and (3) in asynchronous mode
`analyze_request` always returns a Decision.  Only in synchronous-ML mode
does a classifier error escape (see the counterexample). -/
theorem c3_fail_open_amended :
    (∀ (reSearch : String → String → Bool) (inp : StaticInput) (e : String),
      (incidentAnalyzeRequest reSearch inp (.error e)).threat_score =
        (basicStaticAnalysis reSearch inp).threat_score) ∧
    (∀ (cfg : EngineConfig) (cache : DecisionCache) (req : WAFRequest) (now : ℚ)
        (reSearch : String → String → Bool) (m₁ m₂ : Option (Except String MLRaw))
        (rs : AnalysisDict), cfg.ml_async = true →
      wafAnalyzeRequest cfg cache req now reSearch m₁ rs =
        wafAnalyzeRequest cfg cache req now reSearch m₂ rs) ∧
    (∀ (cfg : EngineConfig) (cache : DecisionCache) (req : WAFRequest) (now : ℚ)
        (reSearch : String → String → Bool) (m : Option (Except String MLRaw))
        (rs : AnalysisDict), cfg.ml_async = true →
      ∃ out, wafAnalyzeRequest cfg cache req now reSearch m rs = .ok out) := by
  refine ⟨?_, ?_, ?_⟩
  · intro reSearch inp e
    unfold incidentAnalyzeRequest
    rw [combine_score_cases]
    simp only [performThreatIntelligenceAnalysis]
    split
    · rfl
    · exact max_eq_left (basicStaticAnalysis_score_nonneg reSearch inp)
  · intro cfg cache req now reSearch m₁ m₂ rs h
    unfold wafAnalyzeRequest wafMlPhase
    simp [h]
  · intro cfg cache req now reSearch m rs h
    unfold wafAnalyzeRequest wafMlPhase
    simp only [h]
    repeat' split
    all_goals first
      | exact ⟨_, rfl⟩
      | simp_all

/-- Witness for C3-amended at concrete inputs: the TI-error score equality
on the benign request, and the async-mode independence/totality at the
default configuration. -/
theorem c3_fail_open_amended_witness :
    (incidentAnalyzeRequest noMatchSearch (staticInputOf c3Request)
        (.error "feed down")).threat_score =
      (basicStaticAnalysis noMatchSearch (staticInputOf c3Request)).threat_score ∧
    wafAnalyzeRequest {} [] c3Request 0 noMatchSearch
        (some (.error "classifier down")) benignRawStatic =
      wafAnalyzeRequest {} [] c3Request 0 noMatchSearch none benignRawStatic ∧
    ∃ out, wafAnalyzeRequest {} [] c3Request 0 noMatchSearch
        (some (.error "classifier down")) benignRawStatic = .ok out := by
  refine ⟨c3_fail_open_amended.1 noMatchSearch (staticInputOf c3Request) "feed down",
    c3_fail_open_amended.2.1 {} [] c3Request 0 noMatchSearch
      (some (.error "classifier down")) none benignRawStatic rfl,
    c3_fail_open_amended.2.2 {} [] c3Request 0 noMatchSearch
      (some (.error "classifier down")) benignRawStatic rfl⟩

set_option maxRecDepth 400000 in
unseal Rat.add Rat.sub Rat.mul Rat.inv in
/-- C8: one rate-limit check prunes exactly the timestamps not newer than
`now - window` (all timestamps being nonnegative), counts the survivors,
reports limited iff the count reached the limit — without adding an entry
when limited, adding the current timestamp otherwise — and reports
`remaining = max(0, limit - count)`; replaying 61 requests within 60
seconds against a 60-per-minute limit, the 61st check reports limited with
remaining 0. -/
theorem c8_rate_limit_window (zset : List ℚ) (now : ℚ) (max_requests : ℕ)
    (window_seconds : ℚ) (hpos : ∀ t ∈ zset, 0 ≤ t) :
    (zset.filter (fun ts => !(0 ≤ ts && ts ≤ now - window_seconds)) =
      zset.filter (fun ts => now - window_seconds < ts)) ∧
    ((isRateLimited zset now max_requests window_seconds).1 =
      decide (max_requests ≤
        (zset.filter (fun ts => now - window_seconds < ts)).length)) ∧
    ((isRateLimited zset now max_requests window_seconds).1 = true →
      (isRateLimited zset now max_requests window_seconds).2.2 =
        zset.filter (fun ts => now - window_seconds < ts)) ∧
    ((isRateLimited zset now max_requests window_seconds).1 = false →
      (isRateLimited zset now max_requests window_seconds).2.2 =
        (if (zset.filter (fun ts => now - window_seconds < ts)).contains now then
          zset.filter (fun ts => now - window_seconds < ts)
        else zset.filter (fun ts => now - window_seconds < ts) ++ [now])) ∧
    ((isRateLimited zset now max_requests window_seconds).2.1.remaining =
      max_requests - (zset.filter (fun ts => now - window_seconds < ts)).length) ∧
    (rateLimitRun c8Times 60 60).1 = true ∧
    (rateLimitRun c8Times 60 60).2.1.remaining = 0 := by
  have hfilter : zset.filter (fun ts => !(0 ≤ ts && ts ≤ now - window_seconds)) =
      zset.filter (fun ts => now - window_seconds < ts) := by
    apply List.filter_congr
    intro t ht
    rw [decide_eq_true (hpos t ht), Bool.true_and, ← decide_not]
    exact decide_eq_decide.mpr not_le
  refine ⟨hfilter, ?_, ?_, ?_, ?_, by decide, by decide⟩
  · simp only [isRateLimited, hfilter]
  · intro h
    simp only [isRateLimited, hfilter] at h ⊢
    rw [if_pos (of_decide_eq_true h)]
  · intro h
    simp only [isRateLimited, hfilter] at h ⊢
    rw [if_neg (of_decide_eq_false h)]
  · simp only [isRateLimited, hfilter]

set_option maxRecDepth 40000 in
unseal Rat.add Rat.sub Rat.mul Rat.inv in
/-- Witness for C8 on a concrete set: three timestamps, one outside the
window; the check is limited at limit 2 and adds no entry. -/
theorem c8_rate_limit_window_witness :
    (isRateLimited [0, 50, 59] 60 2 60).1 = true ∧
    (isRateLimited [0, 50, 59] 60 2 60).2.2 = [50, 59] := by
  have h := c8_rate_limit_window [0, 50, 59] 60 2 60 (by decide)
  refine ⟨?_, ?_⟩
  · rw [h.2.1]; decide
  · rw [h.2.2.1 (by rw [h.2.1]; decide)]; decide

set_option maxRecDepth 40000 in
unseal Rat.add Rat.sub Rat.mul Rat.inv in
/-- C4 counterexample: under the default configuration (caching enabled,
async ML) a benign, non-excluded request's decision is never written to
the cache — the async branch returns without calling `_add_to_cache` — so
the identical request one second later (well within the 300s TTL) is a
fresh miss with `cache_hit = false` rather than the claimed cache hit. -/
theorem c4_cache_idempotence_cex :
    isPathExcludedBy ({} : EngineConfig).excluded_paths c3Request.path = false ∧
    (1 : ℚ) - 0 < ({} : EngineConfig).cache_ttl ∧
    wafAnalyzeRequest {} [] c3Request 0 noMatchSearch none benignRawStatic =
      .ok (createAllowDecision [], [],
        { cacheChecked := true, staticRan := true, mlSyncRan := false }) ∧
    wafAnalyzeRequest {} [] c3Request 1 noMatchSearch none benignRawStatic =
      .ok (createAllowDecision [], [],
        { cacheChecked := true, staticRan := true, mlSyncRan := false }) ∧
    (createAllowDecision []).cache_hit = false := by
  refine ⟨by decide, by norm_num, ?_, ?_, by decide⟩ <;>
    · unfold wafAnalyzeRequest
      decide

set_option maxRecDepth 40000 in
unseal Rat.add Rat.sub Rat.mul Rat.inv in
/-- C4 amended: a decision is cached only on the paths that call
`_add_to_cache` (the static fast-block path, shown here, and the
synchronous-ML path) — not in the default async mode (see the
counterexample).  For a cached decision the claim holds: the identical
request within TTL returns it with equal action, score and category and
with `cache_hit = true`. -/
theorem c4_cache_idempotence_amended (cfg : EngineConfig) (req : WAFRequest)
    (now now' : ℚ) (reSearch : String → String → Bool)
    (m m' : Option (Except String MLRaw)) (rs rs' : AnalysisDict) (d : WAFDecision)
    (hd : d = createDecisionFromAnalysis cfg.thresholds
      (basicStaticAnalysis reSearch (staticInputOf req)))
    (hcache : cfg.cache_enabled = true)
    (hexc : isPathExcludedBy cfg.excluded_paths req.path = false)
    (hip : ipGateDecision cfg req.client_ip = none)
    (hstatic : cfg.static_enabled = true)
    (hblock : cfg.thresholds.block ≤
      (basicStaticAnalysis reSearch (staticInputOf req)).threat_score)
    (httl : now' - now < cfg.cache_ttl) :
    wafAnalyzeRequest cfg [] req now reSearch m rs =
      .ok (d, [(generateCacheKey req, d, now)],
        { cacheChecked := true, staticRan := true, mlSyncRan := false }) ∧
    wafAnalyzeRequest cfg [(generateCacheKey req, d, now)] req now' reSearch m' rs' =
      .ok ({ d with cache_hit := true },
        [(generateCacheKey req, { d with cache_hit := true }, now)],
        { cacheChecked := true, staticRan := false, mlSyncRan := false }) ∧
    ({ d with cache_hit := true } : WAFDecision).action = d.action ∧
    ({ d with cache_hit := true } : WAFDecision).threat_score = d.threat_score ∧
    ({ d with cache_hit := true } : WAFDecision).threat_type = d.threat_type ∧
    ({ d with cache_hit := true } : WAFDecision).cache_hit = true := by
  refine ⟨?_, ?_, rfl, rfl, rfl, rfl⟩
  · unfold wafAnalyzeRequest
    rw [hexc]
    simp only [Bool.false_eq_true, if_false]
    have hlook : wafCacheLookup cfg [] (generateCacheKey req) now = (none, []) := by
      simp [wafCacheLookup, getFromCache]
    rw [hlook, hip, hstatic]
    simp only [if_true, ge_iff_le, hblock, ← hd, hcache, addToCache, dictInsert]
    simp
  · unfold wafAnalyzeRequest
    rw [hexc]
    simp only [Bool.false_eq_true, if_false]
    have hlook : wafCacheLookup cfg [(generateCacheKey req, d, now)]
        (generateCacheKey req) now' = (some d, [(generateCacheKey req, d, now)]) := by
      simp [wafCacheLookup, getFromCache, hcache, httl]
    rw [hlook]
    simp [setCacheHitFlag]

set_option maxRecDepth 40000 in
unseal Rat.add Rat.sub Rat.mul Rat.inv in
/-- Witness for C4-amended: the command-injection request is blocked by
the static fast path (score 0.9), cached, and the identical request ten
seconds later is served from the cache with `cache_hit = true`. -/
theorem c4_cache_idempotence_amended_witness :
    (wafAnalyzeRequest {} [(generateCacheKey c4AttackRequest, c4AttackDecision, 0)]
        c4AttackRequest 10 c4AttackSearch none benignRawStatic).map
      (fun out => (out.1.action, out.1.threat_type, out.1.cache_hit)) =
      .ok (.block, "command_injection", true) := by
  have h := (c4_cache_idempotence_amended {} c4AttackRequest 0 10 c4AttackSearch
    none none benignRawStatic benignRawStatic c4AttackDecision rfl rfl (by decide)
    rfl rfl (by decide) (by norm_num)).2.1
  rw [h]
  decide

set_option maxRecDepth 40000 in
unseal Rat.add Rat.sub Rat.mul Rat.inv in
/-- C5 counterexample: the engine consults the decision cache BEFORE the
IP lists.  A benign request from an unlisted IP is analyzed (sync-ML mode)
and its allow decision cached; the identical request from a blacklisted
IP one second later hits the cache (the fingerprint does not include the
IP) and is ALLOWED, not blocked with category `blacklisted_ip`. -/
theorem c5_ip_blacklist_cex :
    c5Config.blacklist.contains "6.6.6.6" = true ∧
    c5Request2.client_ip = some "6.6.6.6" ∧
    isPathExcludedBy c5Config.excluded_paths c5Request2.path = false ∧
    wafAnalyzeRequest c5Config [] c5Request1 0 noMatchSearch c5Ml benignRawStatic =
      .ok (c5CachedDecision,
        [(generateCacheKey c5Request1, c5CachedDecision, 0)],
        { cacheChecked := true, staticRan := true, mlSyncRan := true }) ∧
    wafAnalyzeRequest c5Config
        [(generateCacheKey c5Request1, c5CachedDecision, 0)] c5Request2 1
        noMatchSearch c5Ml benignRawStatic =
      .ok ({ c5CachedDecision with cache_hit := true },
        [(generateCacheKey c5Request1, { c5CachedDecision with cache_hit := true }, 0)],
        { cacheChecked := true, staticRan := false, mlSyncRan := false }) ∧
    ({ c5CachedDecision with cache_hit := true } : WAFDecision).action ≠ .block ∧
    ({ c5CachedDecision with cache_hit := true } : WAFDecision).threat_type ≠
      "blacklisted_ip" := by
  refine ⟨by decide, by decide, by decide, ?_, ?_, by decide, by decide⟩ <;>
    · unfold wafAnalyzeRequest
      decide

/-- C5 amended: when the decision cache holds no valid entry for the
fingerprint, a request from a blacklisted (non-whitelisted) IP is blocked
immediately with category `blacklisted_ip` and score 1.0, without running
the Pattern Analyzer or any slow signal — but the cache is consulted
first, so a cached decision preempts the block (see the counterexample). -/
theorem c5_ip_blacklist_amended (cfg : EngineConfig) (cache cache₂ : DecisionCache)
    (req : WAFRequest) (now : ℚ) (reSearch : String → String → Bool)
    (m : Option (Except String MLRaw)) (rs : AnalysisDict) (ip : String)
    (hexc : isPathExcludedBy cfg.excluded_paths req.path = false)
    (hmiss : wafCacheLookup cfg cache (generateCacheKey req) now = (none, cache₂))
    (hip : req.client_ip = some ip) (hne : ¬ ip = "")
    (hwl : cfg.whitelist.contains ip = false)
    (hbl : cfg.blacklist.contains ip = true) :
    wafAnalyzeRequest cfg cache req now reSearch m rs =
      .ok (createBlockDecision 1 "blacklisted_ip" ["IP " ++ ip ++ " is blacklisted"],
        cache₂,
        { cacheChecked := cfg.cache_enabled, staticRan := false, mlSyncRan := false }) ∧
    (createBlockDecision 1 "blacklisted_ip"
      ["IP " ++ ip ++ " is blacklisted"]).action = .block ∧
    (createBlockDecision 1 "blacklisted_ip"
      ["IP " ++ ip ++ " is blacklisted"]).threat_type = "blacklisted_ip" ∧
    (createBlockDecision 1 "blacklisted_ip"
      ["IP " ++ ip ++ " is blacklisted"]).threat_score = 1 := by
  refine ⟨?_, rfl, rfl, rfl⟩
  unfold wafAnalyzeRequest
  rw [hexc]
  simp only [Bool.false_eq_true, if_false]
  rw [hmiss]
  have hwl' : ip ∉ cfg.whitelist := by simpa using hwl
  have hbl' : ip ∈ cfg.blacklist := by simpa using hbl
  have hip' : ipGateDecision cfg req.client_ip =
      some (createBlockDecision 1 "blacklisted_ip" ["IP " ++ ip ++ " is blacklisted"]) := by
    simp [ipGateDecision, hip, hne, hwl', hbl']
  rw [hip']

set_option maxRecDepth 40000 in
unseal Rat.add Rat.sub Rat.mul Rat.inv in
/-- Witness for C5-amended: on an empty cache the blacklisted IP 6.6.6.6
is blocked immediately, with neither the Pattern Analyzer nor the ML
phase running. -/
theorem c5_ip_blacklist_amended_witness :
    wafAnalyzeRequest c5Config [] c5Request2 0 noMatchSearch c5Ml benignRawStatic =
      .ok (createBlockDecision 1 "blacklisted_ip" ["IP 6.6.6.6 is blacklisted"],
        [], { cacheChecked := true, staticRan := false, mlSyncRan := false }) := by
  have h := (c5_ip_blacklist_amended c5Config [] [] c5Request2 0 noMatchSearch c5Ml
    benignRawStatic "6.6.6.6" (by decide) (by decide) rfl (by decide) (by decide)
    (by decide)).1
  rw [h]
  rfl

/-- Overwriting an existing key makes it map to the new value. -/
theorem lookup_map_overwrite {β : Type} (l : List (String × β)) (k : String) (v : β)
    (h : l.any (fun e => e.1 == k) = true) :
    (l.map (fun e => if e.1 == k then (k, v) else e)).lookup k = some v := by
  induction l with
  | nil => simp at h
  | cons a t ih =>
    simp only [List.any_cons, Bool.or_eq_true] at h
    by_cases ha : a.1 = k
    · have hb : (a.1 == k) = true := beq_iff_eq.mpr ha
      rw [List.map_cons, if_pos hb]
      simp [List.lookup]
    · have hb : (a.1 == k) = false := beq_eq_false_iff_ne.mpr ha
      have ht : t.any (fun e => e.1 == k) = true := by
        rcases h with h | h
        · exact absurd (beq_iff_eq.mp h) ha
        · exact h
      have hk : (k == a.1) = false := beq_eq_false_iff_ne.mpr (fun he => ha he.symm)
      rw [List.map_cons, if_neg (by simp [hb])]
      simp only [List.lookup, hk]
      exact ih ht

/-- Appending a fresh key makes it map to the appended value. -/
theorem lookup_append_single {β : Type} (l : List (String × β)) (k : String) (v : β)
    (h : l.any (fun e => e.1 == k) = false) :
    ((l ++ [(k, v)]).lookup k) = some v := by
  induction l with
  | nil => simp [List.lookup]
  | cons a t ih =>
    simp only [List.any_cons, Bool.or_eq_false_iff] at h
    have hne : ¬ a.1 = k := beq_eq_false_iff_ne.mp h.1
    have hk : (k == a.1) = false := beq_eq_false_iff_ne.mpr (fun he => hne he.symm)
    simp [List.cons_append, List.lookup, hk, ih h.2]

/-- The `assocSet` makes the key map to the new value. -/
theorem assocSet_lookup_self {β : Type} (l : List (String × β)) (k : String) (v : β) :
    (assocSet l k v).lookup k = some v := by
  unfold assocSet
  split
  · exact lookup_map_overwrite l k v (by assumption)
  · exact lookup_append_single l k v (by rename_i h; exact Bool.not_eq_true _ ▸ (by simpa using h))

/-- The `assocErase` removes the key. -/
theorem assocErase_lookup_self {β : Type} (l : List (String × β)) (k : String) :
    (assocErase l k).lookup k = none := by
  unfold assocErase
  induction l with
  | nil => rfl
  | cons a t ih =>
    by_cases ha : a.1 = k
    · simpa [ha] using ih
    · have hk : (k == a.1) = false := by
        simp [beq_iff_eq]
        exact fun he => ha he.symm
      simpa [ha, List.lookup, hk] using ih

/-- C9: the auth lockout state machine.  (1) While locked out and
unexpired, a request to a protected endpoint is rejected with 429 before
`call_next` (content analysis) runs, with Retry-After equal to the
truncated remaining lockout time.  (2) With no lockout present, exceeding
ANY of the three attempt thresholds (5/minute, 20/hour, 50/day) rejects
the request with 429 and locks the identity out until now + 900 s (the
fixed 15-minute default).  (3) Below all thresholds, a 200 response to a
POST clears both the identity's attempt history and its lockout. -/
theorem c9_auth_lockout_machine (st : AuthRLState) (now : ℚ)
    (path method ip : String) (respStatus : ℕ)
    (hauth : isAuthEndpoint path = true) :
    (∀ expiry, st.lockouts.lookup ip = some expiry → now ≤ expiry →
      authDispatch st now path method ip respStatus =
        (.lockedOut429 ⌊expiry - now⌋, false, st)) ∧
    (st.lockouts.lookup ip = none →
      (maxLoginAttemptsPerMinute ≤
        (getAttemptCounts ((st.attempts.lookup ip).getD []) now).1 ∨
       maxLoginAttemptsPerHour ≤
        (getAttemptCounts ((st.attempts.lookup ip).getD []) now).2.1 ∨
       maxLoginAttemptsPerDay ≤
        (getAttemptCounts ((st.attempts.lookup ip).getD []) now).2.2) →
      ∃ retry, authDispatch st now path method ip respStatus =
        (.rateLimited429 retry, false,
          { st with lockouts := assocSet st.lockouts ip (now + lockoutDurationSeconds) }) ∧
        (assocSet st.lockouts ip (now + lockoutDurationSeconds)).lookup ip =
          some (now + 900)) ∧
    (st.lockouts.lookup ip = none →
      (getAttemptCounts ((st.attempts.lookup ip).getD []) now).1 <
        maxLoginAttemptsPerMinute →
      (getAttemptCounts ((st.attempts.lookup ip).getD []) now).2.1 <
        maxLoginAttemptsPerHour →
      (getAttemptCounts ((st.attempts.lookup ip).getD []) now).2.2 <
        maxLoginAttemptsPerDay →
      respStatus = 200 → method = "POST" →
      (authDispatch st now path method ip respStatus).1 = .response 200 ∧
      (authDispatch st now path method ip respStatus).2.1 = true ∧
      (authDispatch st now path method ip respStatus).2.2.attempts.lookup ip =
        some [] ∧
      (authDispatch st now path method ip respStatus).2.2.lockouts.lookup ip =
        none) := by
  refine ⟨?_, ?_, ?_⟩
  · intro expiry hlk hle
    unfold authDispatch
    simp [hauth, hlk, hle]
  · intro hnl hthr
    unfold authDispatch
    simp only [hauth, Bool.not_true, Bool.false_eq_true, if_false, hnl]
    unfold authDispatch.authDispatchUnlocked
    by_cases h1 : maxLoginAttemptsPerMinute ≤
        (getAttemptCounts ((st.attempts.lookup ip).getD []) now).1
    · exact ⟨60, by simp [h1], assocSet_lookup_self st.lockouts ip _⟩
    · by_cases h2 : maxLoginAttemptsPerHour ≤
          (getAttemptCounts ((st.attempts.lookup ip).getD []) now).2.1
      · exact ⟨3600, by simp [h1, h2], assocSet_lookup_self st.lockouts ip _⟩
      · have h3 : maxLoginAttemptsPerDay ≤
            (getAttemptCounts ((st.attempts.lookup ip).getD []) now).2.2 := by
          rcases hthr with h | h | h
          · exact absurd h h1
          · exact absurd h h2
          · exact h
        exact ⟨86400, by simp [h1, h2, h3], assocSet_lookup_self st.lockouts ip _⟩
  · intro hnl h1 h2 h3 hresp hmeth
    have hlt : now - 86400 < now := by linarith
    unfold authDispatch
    simp only [hauth, Bool.not_true, Bool.false_eq_true, if_false, hnl]
    unfold authDispatch.authDispatchUnlocked
    simp only [not_le.mpr h1, if_false, not_le.mpr h2, not_le.mpr h3, hresp, hmeth,
      List.filter_append, decide_eq_true hlt]
    simp only [List.filter_cons, decide_eq_true hlt, if_pos, List.filter_nil]
    simp [assocSet_lookup_self, assocErase_lookup_self]

set_option maxRecDepth 40000 in
unseal Rat.add Rat.sub Rat.mul Rat.inv in
/-- Witness for C9: (1) five attempts within the last minute lock IP
2.2.2.2 out until t = 910; (2) while locked out at t = 20 the request is
rejected with Retry-After 890 and `call_next` does not run; (3) a
successful POST (status 200) clears attempts and lockout. -/
theorem c9_auth_lockout_machine_witness :
    (authDispatch c9St 10 c9AuthPath "POST" "2.2.2.2" 401).2.2.lockouts.lookup
      "2.2.2.2" = some 910 ∧
    authDispatch c9Locked 20 c9AuthPath "POST" "2.2.2.2" 401 =
      (.lockedOut429 890, false, c9Locked) ∧
    (authDispatch c9CleanSt 9 c9AuthPath "POST" "2.2.2.2" 200).2.2.attempts.lookup
      "2.2.2.2" = some [] ∧
    (authDispatch c9CleanSt 9 c9AuthPath "POST" "2.2.2.2" 200).2.2.lockouts.lookup
      "2.2.2.2" = none := by
  refine ⟨?_, ?_, ?_, ?_⟩
  · obtain ⟨r, heq, hlook⟩ :=
      (c9_auth_lockout_machine c9St 10 c9AuthPath "POST" "2.2.2.2" 401 (by decide)).2.1
        (by decide) (Or.inl (by decide))
    rw [heq]
    show (assocSet c9St.lockouts "2.2.2.2" (10 + lockoutDurationSeconds)).lookup
      "2.2.2.2" = some 910
    rw [hlook]
    norm_num
  · have h := (c9_auth_lockout_machine c9Locked 20 c9AuthPath "POST" "2.2.2.2" 401
      (by decide)).1 910 (by decide) (by decide)
    rw [h]
    norm_num
  · exact ((c9_auth_lockout_machine c9CleanSt 9 c9AuthPath "POST" "2.2.2.2" 200
      (by decide)).2.2 (by decide) (by decide) (by decide) (by decide) rfl rfl).2.2.1
  · exact ((c9_auth_lockout_machine c9CleanSt 9 c9AuthPath "POST" "2.2.2.2" 200
      (by decide)).2.2 (by decide) (by decide) (by decide) (by decide) rfl rfl).2.2.2

end Vessa
